import Mathlib

/-!
Verification of the alx_travel_app listings/payments backend against its
natural-language specification.  The definitions below are a shallow
embedding of `listings/models.py`, `listings/serializers.py` and
`listings/views.py`: database tables become lists of records, ORM saves
become list maps keyed on primary keys, the external Chapa gateway calls
become explicit result parameters, and uncaught Python exceptions become
the `HttpResult.serverError` outcome (the framework's 500 response).
-/

namespace AlxTravel

/-- JSON objects (request payloads and gateway responses) are modelled as
association lists of string key/value pairs; Python dict truthiness is
emptiness of the list. -/
abbrev JsonObj := List (String × String)

/-- Python truthiness of an optional string (`None` and `""` are falsy). -/
def optStrTruthy : Option String → Bool
  | none => false
  | some s => if s = "" then false else true

/-- Python truthiness of an optional JSON object (`None` and `{}` are falsy). -/
def optJsonTruthy : Option JsonObj → Bool
  | none => false
  | some j => if j = [] then false else true

/-- Row of the `Destination` model (fields relevant to the claims). -/
structure Destination where
  id : Nat
  name : String
  deriving Repr, DecidableEq

/-- Row of the `Booking` model (`listings/models.py`, class Booking). -/
structure Booking where
  id : Nat
  userId : Nat
  destinationId : Nat
  totalAmount : Nat
  status : String
  booking_reference : String
  deriving Repr, DecidableEq

/-- Row of the `Payment` model (`listings/models.py`, class Payment).
`bookingId` is the one-to-one foreign key; nullable columns are `Option`. -/
structure Payment where
  id : Nat
  bookingId : Nat
  amount : Nat
  currency : String
  payment_method : String
  status : String
  chapa_transaction_id : Option String
  chapa_reference : Option String
  chapa_payment_url : Option String
  verification_response : Option JsonObj
  payment_date : Option Nat
  deriving Repr, DecidableEq

/-- Row of the `Review` model (`listings/models.py`, class Review). -/
structure Review where
  userId : Nat
  destinationId : Nat
  rating : Nat
  comment : String
  deriving Repr, DecidableEq

/-- The relational database state. -/
structure DB where
  destinations : List Destination
  bookings : List Booking
  payments : List Payment
  reviews : List Review
  nextPaymentId : Nat
  deriving Repr, DecidableEq

/-- `Payment.update_status` (`listings/models.py` lines 96-103).  The Python
method mutates the row field by field and saves; the net effect of the three
sequential assignments is this record update: status is always overwritten,
`verification_response` is overwritten only when `chapa_response` is truthy
(`if chapa_response:` — a Python-falsy payload such as `{}` or `None` is
skipped), and `payment_date` is stamped with the current time exactly when
the new status is the string `completed`. -/
def Payment.update_status (p : Payment) (new_status : String)
    (chapa_response : Option JsonObj) (now : Nat) : Payment :=
  { p with
    status := new_status
    verification_response :=
      if optJsonTruthy chapa_response then chapa_response else p.verification_response
    payment_date :=
      if new_status = "completed" then some now else p.payment_date }

/-- ORM `payment.save()`: overwrite the row whose primary key matches. -/
def DB.savePayment (db : DB) (p : Payment) : DB :=
  { db with payments := db.payments.map (fun q => if q.id = p.id then p else q) }

/-- ORM `booking.status = st; booking.save()` for the booking with key `bid`. -/
def DB.saveBookingStatus (db : DB) (bid : Nat) (st : String) : DB :=
  { db with bookings :=
      db.bookings.map (fun b => if b.id = bid then { b with status := st } else b) }

/-- ORM `Payment.objects.get(chapa_transaction_id=tx)` (the column is unique). -/
def DB.findPaymentByTx (db : DB) (tx : String) : Option Payment :=
  db.payments.find? (fun p => p.chapa_transaction_id == some tx)

/-- ORM `Payment.objects.get(id=pid)`. -/
def DB.findPaymentById (db : DB) (pid : Nat) : Option Payment :=
  db.payments.find? (fun p => p.id == pid)

/-- ORM `Booking.objects.get(id=bid)`. -/
def DB.findBookingById (db : DB) (bid : Nat) : Option Booking :=
  db.bookings.find? (fun b => b.id == bid)

/-- Status column of the payment row with primary key `pid`, if any. -/
def DB.paymentStatusById (db : DB) (pid : Nat) : Option String :=
  (db.findPaymentById pid).map Payment.status

/-- Status column of the booking row with primary key `bid`, if any. -/
def DB.bookingStatusById (db : DB) (bid : Nat) : Option String :=
  (db.findBookingById bid).map Booking.status

/-- Outcome of an HTTP request: either a DRF `Response` with a status code
and JSON body, or an exception that escaped the view (the framework turns
it into a 500 server error). -/
inductive HttpResult where
  | ok (code : Nat) (body : JsonObj)
  | serverError
  deriving Repr, DecidableEq

/-- The HTTP status code of an outcome (an escaped exception is a 500). -/
def HttpResult.statusCode : HttpResult → Nat
  | HttpResult.ok c _ => c
  | HttpResult.serverError => 500

/-- Whether the outcome is an error (4xx/5xx response or escaped exception). -/
def HttpResult.isError : HttpResult → Bool
  | HttpResult.ok c _ => if 400 ≤ c then true else false
  | HttpResult.serverError => true

/-- Result of the outbound `ChapaPaymentAPI.initiate_payment` call
(`listings/views.py` lines 33-81): either a success dict with checkout
data or a failure dict (non-200 gateway response or transport exception). -/
structure GatewayInitResult where
  success : Bool
  payment_url : Option String
  reference : Option String
  transaction_id : Option String
  error : String
  deriving Repr, DecidableEq

/-- Result of the outbound `ChapaPaymentAPI.verify_payment` call
(`listings/views.py` lines 83-113): `status` is the gateway-reported
transaction status and `data` the raw parsed response body. -/
structure GatewayVerifyResult where
  success : Bool
  status : Option String
  data : JsonObj
  error : String
  deriving Repr, DecidableEq

/-- Outcome of one DRF serializer validation run. -/
inductive VRes where
  | ok (v : Nat)
  | err (msg : String)
  | exn
  deriving Repr, DecidableEq

/-- `PaymentInitiationSerializer.validate_booking_id`
(`listings/serializers.py` lines 73-80).  `Booking.objects.get(id=value,
user=request.user)` failing raises `Booking.DoesNotExist`, which the method
converts to a validation error.  When the booking is found, the code
evaluates `booking.payment.exists()`: if the booking has no payment the
reverse one-to-one access `booking.payment` raises
`RelatedObjectDoesNotExist` (a subclass of `Payment.DoesNotExist` and
`AttributeError`, not of `Booking.DoesNotExist`), and if it has one the
`Payment` instance has no `exists` attribute so the call raises
`AttributeError`; neither is caught, so both cases escape (`VRes.exn`). -/
def validate_booking_id (db : DB) (caller : Nat) (value : Nat) : VRes :=
  match db.bookings.find? (fun b => b.id == value && b.userId == caller) with
  | none => VRes.err "Booking not found"
  | some booking =>
    match db.payments.find? (fun p => p.bookingId == booking.id) with
    | none => VRes.exn
    | some _ => VRes.exn

/-- The choices of `Payment.PAYMENT_METHOD_CHOICES`. -/
def PAYMENT_METHODS : List String := ["card", "bank", "mobile_money", "crypto"]

/-- Body of a `POST /payments/initiate/` request. -/
structure InitRequest where
  booking_id : Nat
  payment_method : String
  currency : String
  deriving Repr, DecidableEq

/-- `PaymentInitiationSerializer.is_valid()`: the `booking_id` field is
declared first, so `validate_booking_id` runs first and an uncaught
exception there aborts validation; otherwise field-level checks on
`payment_method` (choice membership) and `currency` (max length 3) apply. -/
def initiation_is_valid (db : DB) (caller : Nat) (req : InitRequest) : VRes :=
  match validate_booking_id db caller req.booking_id with
  | VRes.exn => VRes.exn
  | VRes.err m => VRes.err m
  | VRes.ok bid =>
    if req.payment_method ∈ PAYMENT_METHODS then
      if req.currency.length ≤ 3 then VRes.ok bid
      else VRes.err "Ensure this field has no more than 3 characters."
    else VRes.err "invalid choice"

/-- Body of the `initiate_payment` view after serializer validation
(`listings/views.py` lines 172-219): `get_object_or_404(Booking, id=...)`
(no owner filter; its `Http404` is swallowed by the view's broad
`except Exception` handler, giving a handled 500 response), the
`hasattr(booking, 'payment')` duplicate check, the gateway call, and on
gateway success the creation of a pending `Payment` row. -/
def initiate_payment_view (db : DB) (req : InitRequest)
    (gw : GatewayInitResult) : HttpResult × DB :=
  match db.bookings.find? (fun b => b.id == req.booking_id) with
  | none => (HttpResult.ok 500 [("error", "Internal server error")], db)
  | some booking =>
    match db.payments.find? (fun p => p.bookingId == booking.id) with
    | some _ =>
      (HttpResult.ok 400 [("error", "Payment already exists for this booking")], db)
    | none =>
      if gw.success then
        (HttpResult.ok 201 [("message", "Payment initiated successfully")],
         { db with
            payments := db.payments ++
              [{ id := db.nextPaymentId
                 bookingId := booking.id
                 amount := booking.totalAmount
                 currency := req.currency
                 payment_method := req.payment_method
                 status := "pending"
                 chapa_transaction_id := gw.transaction_id
                 chapa_reference := gw.reference
                 chapa_payment_url := gw.payment_url
                 verification_response := none
                 payment_date := none }]
            nextPaymentId := db.nextPaymentId + 1 })
      else
        (HttpResult.ok 400 [("error", "Failed to initiate payment"),
                            ("details", gw.error)], db)

/-- The full `POST /payments/initiate/` endpoint: serializer validation
(whose uncaught exception becomes a framework 500 — `serializer.is_valid()`
is called outside the view's try block), then the view body. -/
def initiate_payment_endpoint (db : DB) (caller : Nat) (req : InitRequest)
    (gw : GatewayInitResult) : HttpResult × DB :=
  match initiation_is_valid db caller req with
  | VRes.exn => (HttpResult.serverError, db)
  | VRes.err m => (HttpResult.ok 400 [("booking_id", m)], db)
  | VRes.ok _ => initiate_payment_view db req gw

/-- Body of the `verify_payment` view after serializer validation
(`listings/views.py` lines 230-284).  `get_object_or_404(Payment,
chapa_transaction_id=...)` raising `Http404` is swallowed by the broad
`except Exception` handler (handled 500 response).  On gateway success the
gateway-reported status is mapped: "success" to completed plus booking
confirmation, "failed" to failed, anything else to processing; the raw
gateway response body is passed to `Payment.update_status` each time.
The `caller` argument reflects `request.user`, which the body never
consults. -/
def verify_payment_view (db : DB) (caller : Nat) (transaction_id : String)
    (gw : GatewayVerifyResult) (now : Nat) : HttpResult × DB :=
  match db.findPaymentByTx transaction_id with
  | none => (HttpResult.ok 500 [("error", "Internal server error")], db)
  | some payment =>
    if gw.success then
      if gw.status = some "success" then
        (HttpResult.ok 200 [("message", "Payment verified successfully"),
                            ("status", "completed")],
         (db.savePayment (payment.update_status "completed" (some gw.data) now)).saveBookingStatus
           payment.bookingId "confirmed")
      else if gw.status = some "failed" then
        (HttpResult.ok 200 [("message", "Payment verification failed"),
                            ("status", "failed")],
         db.savePayment (payment.update_status "failed" (some gw.data) now))
      else
        (HttpResult.ok 200 [("message", "Payment is being processed"),
                            ("status", "processing")],
         db.savePayment (payment.update_status "processing" (some gw.data) now))
    else
      (HttpResult.ok 400 [("error", "Payment verification failed"),
                          ("details", gw.error)], db)

/-- The full `POST /payments/verify/` endpoint:
`PaymentVerificationSerializer` checks the `transaction_id` field length
(`max_length=100`) and `validate_transaction_id` rejects unknown
transaction ids with a validation error (400); then the view body runs. -/
def verify_payment_endpoint (db : DB) (caller : Nat) (transaction_id : String)
    (gw : GatewayVerifyResult) (now : Nat) : HttpResult × DB :=
  if transaction_id.length > 100 then
    (HttpResult.ok 400 [("transaction_id", "Ensure this field has no more than 100 characters.")], db)
  else
    match db.findPaymentByTx transaction_id with
    | none => (HttpResult.ok 400 [("transaction_id", "Transaction ID not found")], db)
    | some _ => verify_payment_view db caller transaction_id gw now

/-- Owner of the booking a payment belongs to (the `booking__user` join). -/
def DB.bookingUserOf (db : DB) (p : Payment) : Option Nat :=
  (db.bookings.find? (fun b => b.id == p.bookingId)).map Booking.userId

/-- The `GET /payments/{id}/status/` endpoint (`listings/views.py` lines
289-306): `get_object_or_404(Payment, id=payment_id, booking__user=
request.user)` is wrapped in `except Exception`, so a missing or
foreign-owned payment does not surface as a 404 — the `Http404` is caught
and answered with a handled 500 response. -/
def payment_status_endpoint (db : DB) (caller : Nat) (payment_id : Nat) : HttpResult :=
  match db.payments.find?
      (fun p => p.id == payment_id && (db.bookingUserOf p == some caller)) with
  | some p => HttpResult.ok 200 [("status", p.status), ("currency", p.currency)]
  | none => HttpResult.ok 500 [("error", "Internal server error")]

/-- The `chapa_webhook` handler body (`listings/views.py` lines 311-347).
`transaction_id = webhook_data.get('id')` and the local assignment
`status = webhook_data.get('status')` shadow-bind `status` to the payload
string for the whole function body.  When both are truthy and the payment
is found, the status mapping updates the rows exactly as in verification
("success" and "failed" only) — these saves are committed.  Every return
statement then evaluates `status.HTTP_200_OK` (resp. `HTTP_404_NOT_FOUND`,
`HTTP_400_BAD_REQUEST`) on that local string or `None`, raising
`AttributeError`; the outer `except Exception` handler evaluates
`status.HTTP_500_INTERNAL_SERVER_ERROR` on the same shadowed name and
raises again, so every request escapes as a framework 500
(`HttpResult.serverError`). -/
def chapa_webhook (db : DB) (webhook_data : JsonObj) (now : Nat) : HttpResult × DB :=
  let transaction_id := webhook_data.lookup "id"
  let statusLocal := webhook_data.lookup "status"
  if optStrTruthy transaction_id && optStrTruthy statusLocal then
    match db.payments.find? (fun p => p.chapa_transaction_id == transaction_id) with
    | some payment =>
      (HttpResult.serverError,
       if statusLocal = some "success" then
         (db.savePayment (payment.update_status "completed" (some webhook_data) now)).saveBookingStatus
           payment.bookingId "confirmed"
       else if statusLocal = some "failed" then
         db.savePayment (payment.update_status "failed" (some webhook_data) now)
       else db)
    | none => (HttpResult.serverError, db)
  else (HttpResult.serverError, db)

/-- The `POST /payments/webhook/` endpoint as routed: the view is decorated
with `@permission_classes([IsAuthenticated])` (`listings/views.py` lines
309-310), so an unauthenticated request is rejected by DRF with a 401
before the handler body runs. -/
def chapa_webhook_endpoint (db : DB) (caller : Option Nat) (webhook_data : JsonObj)
    (now : Nat) : HttpResult × DB :=
  match caller with
  | none =>
    (HttpResult.ok 401 [("detail", "Authentication credentials were not provided.")], db)
  | some _ => chapa_webhook db webhook_data now

/-- A gateway-style webhook payload carrying a transaction id and a status. -/
def mkWebhookData (tx st : String) : JsonObj := [("id", tx), ("status", st)]

/-- The choices of `Review.rating` (`PositiveIntegerField(choices=1..5)`). -/
def RATING_CHOICES : List Nat := [1, 2, 3, 4, 5]

/-- `Review.objects.create` against the schema constraints: the
`unique_together = ['user', 'destination']` constraint rejects a duplicate
(user, destination) pair with an `IntegrityError`, and the destination
foreign key must resolve. -/
def DB.insertReview (db : DB) (r : Review) : Except String DB :=
  if db.reviews.any (fun q => q.userId == r.userId && q.destinationId == r.destinationId) then
    Except.error "UNIQUE constraint failed: listings_review.user_id, listings_review.destination_id"
  else if (db.destinations.find? (fun d => d.id == r.destinationId)).isNone then
    Except.error "FOREIGN KEY constraint failed"
  else Except.ok { db with reviews := db.reviews ++ [r] }

/-- The `POST /reviews/` create action: `ReviewSerializer` validates the
rating choice (its `unique_together` fields `user` and `destination` are
read-only on the serializer, so DRF attaches no unique-together validator),
then `create` inserts the row with `user=request.user`; a duplicate pair
dies on the database constraint and the `IntegrityError` escapes as a
framework 500. -/
def create_review (db : DB) (caller : Nat) (destination_id : Nat) (rating : Nat)
    (comment : String) : HttpResult × DB :=
  if rating ∈ RATING_CHOICES then
    match db.insertReview
        { userId := caller, destinationId := destination_id,
          rating := rating, comment := comment } with
    | Except.ok db1 => (HttpResult.ok 201 [("rating", toString rating)], db1)
    | Except.error _ => (HttpResult.serverError, db)
  else (HttpResult.ok 400 [("rating", "invalid choice")], db)

/-- Fixture destination. -/
def destEx : Destination := { id := 1, name := "Zanzibar" }

/-- Fixture booking owned by user 1, status pending. -/
def bookingEx : Booking :=
  { id := 1, userId := 1, destinationId := 1, totalAmount := 500,
    status := "pending", booking_reference := "BR-1" }

/-- Fixture pending payment for `bookingEx` with transaction id TXN123. -/
def paymentEx : Payment :=
  { id := 1, bookingId := 1, amount := 500, currency := "NGN",
    payment_method := "card", status := "pending",
    chapa_transaction_id := some "TXN123", chapa_reference := some "CH-1",
    chapa_payment_url := some "https://pay.example/1",
    verification_response := none, payment_date := none }

/-- Fixture review by user 1 of destination 1. -/
def reviewEx : Review := { userId := 1, destinationId := 1, rating := 4, comment := "nice" }

/-- Fixture database: one destination, one booking, one pending payment. -/
def dbEx : DB :=
  { destinations := [destEx], bookings := [bookingEx], payments := [paymentEx],
    reviews := [], nextPaymentId := 2 }

/-- Empty database fixture. -/
def dbEmpty : DB :=
  { destinations := [], bookings := [], payments := [], reviews := [], nextPaymentId := 1 }

/-- Fixture database holding one review by user 1 of destination 1. -/
def dbRev : DB :=
  { destinations := [destEx], bookings := [], payments := [], reviews := [reviewEx],
    nextPaymentId := 1 }

/-- Gateway verification result reporting status success. -/
def gwVerifySuccess : GatewayVerifyResult :=
  { success := true, status := some "success", data := [("status", "success")], error := "" }

/-- Gateway verification result reporting status failed. -/
def gwVerifyFailed : GatewayVerifyResult :=
  { success := true, status := some "failed", data := [("status", "failed")], error := "" }

/-- Gateway verification result reporting some other status. -/
def gwVerifyOther : GatewayVerifyResult :=
  { success := true, status := some "created", data := [("status", "created")], error := "" }

/-- Failed outbound gateway initiation call. -/
def gwInitFail : GatewayInitResult :=
  { success := false, payment_url := none, reference := none, transaction_id := none,
    error := "Chapa API error: 500" }

/-- Fixture initiation request targeting booking 1. -/
def initReqEx : InitRequest := { booking_id := 1, payment_method := "card", currency := "NGN" }

/-- The status update never changes the primary key. -/
theorem update_status_id (p : Payment) (ns : String) (cr : Option JsonObj) (t : Nat) :
    (p.update_status ns cr t).id = p.id := rfl

/-- The status update never changes the booking foreign key. -/
theorem update_status_bookingId (p : Payment) (ns : String) (cr : Option JsonObj) (t : Nat) :
    (p.update_status ns cr t).bookingId = p.bookingId := rfl

/-- The status update never changes the gateway transaction id. -/
theorem update_status_tx (p : Payment) (ns : String) (cr : Option JsonObj) (t : Nat) :
    (p.update_status ns cr t).chapa_transaction_id = p.chapa_transaction_id := rfl

/-- The status update always writes the requested status. -/
theorem update_status_status (p : Payment) (ns : String) (cr : Option JsonObj) (t : Nat) :
    (p.update_status ns cr t).status = ns := rfl

/-- Overwriting the row keyed by `p.id` makes the lookup by that key return
`p` exactly when the lookup previously returned some row. -/
theorem find?_map_overwrite (l : List Payment) (p : Payment) :
    (l.map (fun q => if q.id = p.id then p else q)).find? (fun q => q.id == p.id)
      = (l.find? (fun q => q.id == p.id)).map (fun _ => p) := by
  induction l with
  | nil => rfl
  | cons q qs ih =>
    by_cases h : q.id = p.id
    · simp [List.map_cons, h]
    · simp [List.map_cons, h, ih]

/-- Setting the status of the booking keyed by `bid` rewrites the lookup by
that key accordingly. -/
theorem find?_map_setstatus (l : List Booking) (bid : Nat) (st : String) :
    (l.map (fun b => if b.id = bid then { b with status := st } else b)).find?
        (fun b => b.id == bid)
      = (l.find? (fun b => b.id == bid)).map (fun b => { b with status := st }) := by
  induction l with
  | nil => rfl
  | cons q qs ih =>
    by_cases h : q.id = bid
    · simp [List.map_cons, h]
    · simp [List.map_cons, h, ih]

/-- When row ids are pairwise distinct and a search finds row `p`,
overwriting the row keyed by `p2.id = p.id` with a row `p2` that also
satisfies the search predicate makes the search find `p2`. -/
theorem find?_map_overwrite_of_pairwise (l : List Payment) (P : Payment → Bool)
    (p p2 : Payment) (hf : l.find? P = some p) (hP : P p2 = true) (hid : p2.id = p.id)
    (hpw : l.Pairwise (fun a b => a.id ≠ b.id)) :
    (l.map (fun q => if q.id = p2.id then p2 else q)).find? P = some p2 := by
  induction l with
  | nil => simp at hf
  | cons q qs ih =>
    rcases List.pairwise_cons.mp hpw with ⟨hhead, htail⟩
    by_cases hPq : P q = true
    · rw [List.find?_cons_of_pos _ hPq] at hf
      have hqp : q = p := Option.some.inj hf
      subst hqp
      have hqid : q.id = p2.id := hid.symm
      rw [List.map_cons, if_pos hqid, List.find?_cons_of_pos _ hP]
    · rw [List.find?_cons_of_neg _ hPq] at hf
      have hmem : p ∈ qs := List.mem_of_find?_eq_some hf
      have hne : q.id ≠ p.id := hhead p hmem
      have hqid : ¬ q.id = p2.id := by rw [hid]; exact hne
      rw [List.map_cons, if_neg hqid, List.find?_cons_of_neg _ hPq]
      exact ih hf htail

/-- Overwriting a row with one carrying the same id preserves pairwise
distinctness of ids. -/
theorem pairwise_map_overwrite (l : List Payment) (p2 : Payment)
    (h : l.Pairwise (fun a b => a.id ≠ b.id)) :
    (l.map (fun q => if q.id = p2.id then p2 else q)).Pairwise
      (fun a b => a.id ≠ b.id) := by
  rw [List.pairwise_map]
  refine h.imp ?_
  intro a b hab
  have h1 : (if a.id = p2.id then p2 else a).id = a.id := by
    by_cases ha : a.id = p2.id <;> simp [ha]
  have h2 : (if b.id = p2.id then p2 else b).id = b.id := by
    by_cases hb : b.id = p2.id <;> simp [hb]
  rw [h1, h2]; exact hab

/-- Saving a payment row rewrites the lookup by its primary key. -/
theorem findPaymentById_savePayment (db : DB) (p : Payment) :
    (db.savePayment p).findPaymentById p.id = (db.findPaymentById p.id).map (fun _ => p) :=
  find?_map_overwrite db.payments p

/-- After saving a payment whose key was present, the stored status is the
saved row's status. -/
theorem paymentStatusById_savePayment (db : DB) (p : Payment)
    (h : (db.findPaymentById p.id).isSome = true) :
    (db.savePayment p).paymentStatusById p.id = some p.status := by
  unfold DB.paymentStatusById
  rw [findPaymentById_savePayment]
  cases hx : db.findPaymentById p.id with
  | none => rw [hx] at h; simp at h
  | some q => simp

/-- Saving a booking status rewrites the lookup by that booking's key. -/
theorem findBookingById_saveBookingStatus (db : DB) (bid : Nat) (st : String) :
    (db.saveBookingStatus bid st).findBookingById bid
      = (db.findBookingById bid).map (fun b => { b with status := st }) :=
  find?_map_setstatus db.bookings bid st

/-- After writing a booking status for a key that was present, the stored
status is the written one. -/
theorem bookingStatusById_saveBookingStatus (db : DB) (bid : Nat) (st : String)
    (h : (db.findBookingById bid).isSome = true) :
    (db.saveBookingStatus bid st).bookingStatusById bid = some st := by
  unfold DB.bookingStatusById
  rw [findBookingById_saveBookingStatus]
  cases hx : db.findBookingById bid with
  | none => rw [hx] at h; simp at h
  | some b => simp

/-- Booking writes do not touch payment rows. -/
theorem paymentStatusById_saveBookingStatus (db : DB) (bid : Nat) (st : String) (pid : Nat) :
    (db.saveBookingStatus bid st).paymentStatusById pid = db.paymentStatusById pid := rfl

/-- Payment writes do not touch booking rows. -/
theorem bookingStatusById_savePayment (db : DB) (p : Payment) (bid : Nat) :
    (db.savePayment p).bookingStatusById bid = db.bookingStatusById bid := rfl

/-- Booking writes do not affect payment lookup by transaction id. -/
theorem findPaymentByTx_saveBookingStatus (db : DB) (bid : Nat) (st : String) (tx : String) :
    (db.saveBookingStatus bid st).findPaymentByTx tx = db.findPaymentByTx tx := rfl

/-- Payment writes do not affect booking lookup. -/
theorem findBookingById_savePayment (db : DB) (p : Payment) (bid : Nat) :
    (db.savePayment p).findBookingById bid = db.findBookingById bid := rfl

/-- Booking writes do not affect payment lookup by id. -/
theorem findPaymentById_saveBookingStatus (db : DB) (bid : Nat) (st : String) (pid : Nat) :
    (db.saveBookingStatus bid st).findPaymentById pid = db.findPaymentById pid := rfl

/-- Booking writes leave the payment table unchanged. -/
theorem payments_saveBookingStatus (db : DB) (bid : Nat) (st : String) :
    (db.saveBookingStatus bid st).payments = db.payments := rfl

/-- A payment row that is in the table is found by its primary key. -/
theorem findPaymentById_isSome_of_mem (db : DB) (p : Payment) (h : p ∈ db.payments) :
    (db.findPaymentById p.id).isSome = true := by
  unfold DB.findPaymentById
  simp only [List.find?_isSome]
  exact ⟨p, h, by simp⟩

/-- A payment found by transaction id is a row of the payment table. -/
theorem mem_of_findPaymentByTx (db : DB) (tx : String) (p : Payment)
    (h : db.findPaymentByTx tx = some p) : p ∈ db.payments :=
  List.mem_of_find?_eq_some h

/-- The constructed webhook payload carries the transaction id under "id". -/
theorem mkWebhookData_lookup_id (tx st : String) :
    (mkWebhookData tx st).lookup "id" = some tx := rfl

/-- The constructed webhook payload carries the status under "status". -/
theorem mkWebhookData_lookup_status (tx st : String) :
    (mkWebhookData tx st).lookup "status" = some st := rfl

/-- Evaluation of the webhook handler on a success payload whose transaction
id matches an existing payment: the response escapes as a 500 and the
database gets the completed payment and the confirmed booking. -/
theorem chapa_webhook_success_eq (db : DB) (tx : String) (p : Payment) (t : Nat)
    (htx : tx ≠ "") (hp : db.findPaymentByTx tx = some p) :
    chapa_webhook db (mkWebhookData tx "success") t
      = (HttpResult.serverError,
         (db.savePayment
            (p.update_status "completed" (some (mkWebhookData tx "success")) t)).saveBookingStatus
           p.bookingId "confirmed") := by
  have hfind : db.payments.find?
      (fun q => q.chapa_transaction_id == some tx) = some p := hp
  simp only [chapa_webhook, mkWebhookData_lookup_id, mkWebhookData_lookup_status]
  rw [hfind]
  simp [optStrTruthy, htx]

/-- Evaluation of the webhook handler on a failed payload whose transaction
id matches an existing payment: the response escapes as a 500 and the
payment row is marked failed. -/
theorem chapa_webhook_failed_eq (db : DB) (tx : String) (p : Payment) (t : Nat)
    (htx : tx ≠ "") (hp : db.findPaymentByTx tx = some p) :
    chapa_webhook db (mkWebhookData tx "failed") t
      = (HttpResult.serverError,
         db.savePayment (p.update_status "failed" (some (mkWebhookData tx "failed")) t)) := by
  have hfind : db.payments.find?
      (fun q => q.chapa_transaction_id == some tx) = some p := hp
  simp only [chapa_webhook, mkWebhookData_lookup_id, mkWebhookData_lookup_status]
  rw [hfind]
  simp [optStrTruthy, htx]

/-- Saving a payment row whose key equals `pid` stores that row's status
under `pid`, provided some row with key `pid` was present. -/
theorem paymentStatusById_save_generic (db : DB) (p2 : Payment) (pid : Nat)
    (hid : p2.id = pid) (h : (db.findPaymentById pid).isSome = true) :
    (db.savePayment p2).paymentStatusById pid = some p2.status := by
  subst hid
  exact paymentStatusById_savePayment db p2 h

/-- Saving a payment row keeps the lookup by its key inhabited. -/
theorem findPaymentById_isSome_savePayment (db : DB) (p2 : Payment) (pid : Nat)
    (hid : p2.id = pid) (h : (db.findPaymentById pid).isSome = true) :
    ((db.savePayment p2).findPaymentById pid).isSome = true := by
  subst hid
  rw [findPaymentById_savePayment]
  cases hx : db.findPaymentById p2.id with
  | none => rw [hx] at h; simp at h
  | some q => rfl

/-- Writing a booking status keeps the lookup by that key inhabited. -/
theorem findBookingById_isSome_saveBookingStatus (db : DB) (bid : Nat) (st : String)
    (h : (db.findBookingById bid).isSome = true) :
    ((db.saveBookingStatus bid st).findBookingById bid).isSome = true := by
  rw [findBookingById_saveBookingStatus]
  cases hx : db.findBookingById bid with
  | none => rw [hx] at h; simp at h
  | some b2 => rfl

/-- Under pairwise-distinct payment ids, saving a row that keeps the id and
transaction id of the row found by transaction id makes the transaction-id
lookup return the saved row. -/
theorem findPaymentByTx_savePayment_of_pairwise (db : DB) (tx : String) (p p2 : Payment)
    (hp : db.findPaymentByTx tx = some p)
    (htx2 : p2.chapa_transaction_id = p.chapa_transaction_id)
    (hid : p2.id = p.id)
    (hpw : db.payments.Pairwise (fun a c => a.id ≠ c.id)) :
    (db.savePayment p2).findPaymentByTx tx = some p2 := by
  have hp2 : db.payments.find? (fun q => q.chapa_transaction_id == some tx) = some p := hp
  have hPp := (List.find?_eq_some.mp hp2).1
  have hP : (fun q => q.chapa_transaction_id == some tx) p2 = true := by
    show (p2.chapa_transaction_id == some tx) = true
    rw [htx2]
    exact hPp
  exact find?_map_overwrite_of_pairwise db.payments _ p p2 hp2 hP hid hpw

/-- Net effect of processing a success webhook for the payment found under
`tx`: the payment is completed, its booking is confirmed, and the
transaction-id lookup, id lookups and pairwise-distinctness of ids persist
so the step can be iterated. -/
theorem webhook_success_db_facts (db : DB) (tx : String) (p : Payment) (t : Nat)
    (htx : tx ≠ "") (hp : db.findPaymentByTx tx = some p)
    (hbsome : (db.findBookingById p.bookingId).isSome = true)
    (hpsome : (db.findPaymentById p.id).isSome = true)
    (hpw : db.payments.Pairwise (fun a c => a.id ≠ c.id)) :
    (chapa_webhook db (mkWebhookData tx "success") t).2.paymentStatusById p.id
        = some "completed" ∧
    (chapa_webhook db (mkWebhookData tx "success") t).2.bookingStatusById p.bookingId
        = some "confirmed" ∧
    (chapa_webhook db (mkWebhookData tx "success") t).2.findPaymentByTx tx
        = some (p.update_status "completed" (some (mkWebhookData tx "success")) t) ∧
    (chapa_webhook db (mkWebhookData tx "success") t).2.payments.Pairwise
        (fun a c => a.id ≠ c.id) ∧
    ((chapa_webhook db (mkWebhookData tx "success") t).2.findBookingById p.bookingId).isSome
        = true ∧
    ((chapa_webhook db (mkWebhookData tx "success") t).2.findPaymentById p.id).isSome
        = true := by
  have h1s : (chapa_webhook db (mkWebhookData tx "success") t).2
      = (db.savePayment
          (p.update_status "completed" (some (mkWebhookData tx "success")) t)).saveBookingStatus
          p.bookingId "confirmed" := by
    rw [chapa_webhook_success_eq db tx p t htx hp]
  refine ⟨?_, ?_, ?_, ?_, ?_, ?_⟩
  · rw [h1s, paymentStatusById_saveBookingStatus]
    exact paymentStatusById_save_generic db
      (p.update_status "completed" (some (mkWebhookData tx "success")) t) p.id rfl hpsome
  · rw [h1s]
    exact bookingStatusById_saveBookingStatus
      (db.savePayment (p.update_status "completed" (some (mkWebhookData tx "success")) t))
      p.bookingId "confirmed"
      (by rw [findBookingById_savePayment]; exact hbsome)
  · rw [h1s, findPaymentByTx_saveBookingStatus]
    exact findPaymentByTx_savePayment_of_pairwise db tx p
      (p.update_status "completed" (some (mkWebhookData tx "success")) t) hp rfl rfl hpw
  · rw [h1s, payments_saveBookingStatus]
    exact pairwise_map_overwrite db.payments
      (p.update_status "completed" (some (mkWebhookData tx "success")) t) hpw
  · rw [h1s]
    exact findBookingById_isSome_saveBookingStatus
      (db.savePayment (p.update_status "completed" (some (mkWebhookData tx "success")) t))
      p.bookingId "confirmed"
      (by rw [findBookingById_savePayment]; exact hbsome)
  · rw [h1s, findPaymentById_saveBookingStatus]
    exact findPaymentById_isSome_savePayment db
      (p.update_status "completed" (some (mkWebhookData tx "success")) t) p.id rfl hpsome

/-- Claim C4 (counterexample): the claim that any supplied gateway response
payload is always stored in the verification-response field fails for a
supplied empty payload: `update_status` to failed with the empty object
supplied leaves `verification_response` unset instead of storing it,
because the source guards the store with Python truthiness. -/
theorem update_status_empty_payload_counterexample :
    (paymentEx.update_status "failed" (some []) 5).verification_response ≠ some [] := by
  simp [paymentEx, Payment.update_status, optJsonTruthy]

/-- Claim C4 (amended): transitioning a payment to completed sets the
completion timestamp to the current time and transitioning to any other
status leaves it untouched; a supplied non-empty gateway response payload
is always stored in the verification-response field, while a supplied
empty (Python-falsy) payload — like no payload at all — leaves the field
unchanged. -/
theorem update_status_amended (p : Payment) (ns : String) (cr : Option JsonObj) (t : Nat) :
    (ns = "completed" → (p.update_status ns cr t).payment_date = some t) ∧
    (ns ≠ "completed" → (p.update_status ns cr t).payment_date = p.payment_date) ∧
    (∀ r, cr = some r → r ≠ [] →
      (p.update_status ns cr t).verification_response = some r) ∧
    (∀ r, cr = some r → r = [] →
      (p.update_status ns cr t).verification_response = p.verification_response) ∧
    (cr = none → (p.update_status ns cr t).verification_response = p.verification_response) := by
  refine ⟨?_, ?_, ?_, ?_, ?_⟩
  · intro h
    simp [Payment.update_status, h]
  · intro h
    simp [Payment.update_status, h]
  · intro r hr hne
    subst hr
    simp [Payment.update_status, optJsonTruthy, hne]
  · intro r hr he
    subst hr
    simp [Payment.update_status, optJsonTruthy, he]
  · intro h
    subst h
    simp [Payment.update_status, optJsonTruthy]

/-- Claim C4 (witness): concrete evaluations of the amended claim. -/
theorem update_status_amended_witness :
    (paymentEx.update_status "completed" (some [("k", "v")]) 9).payment_date = some 9 ∧
    (paymentEx.update_status "pending" (some [("k", "v")]) 9).verification_response
      = some [("k", "v")] :=
  ⟨(update_status_amended paymentEx "completed" (some [("k", "v")]) 9).1 rfl,
   (update_status_amended paymentEx "pending" (some [("k", "v")]) 9).2.2.1
     [("k", "v")] rfl (by decide)⟩

/-- Claim C10: the payment-verification endpoint is not scoped to the
caller — for any two authenticated users, a verify request with a given
transaction id performs the same status update and returns the same
response, regardless of which of them owns the payment's booking. -/
theorem verify_caller_independent (db : DB) (u1 u2 : Nat) (tx : String)
    (gw : GatewayVerifyResult) (t : Nat) :
    verify_payment_endpoint db u1 tx gw t = verify_payment_endpoint db u2 tx gw t := rfl

/-- Claim C2: when a booking owned by the caller already has a payment, a
payment-initiation request for it is answered with an error response (the
serializer's `booking.payment.exists()` raises an uncaught AttributeError,
surfacing as a framework 500) and the database is unchanged — no second
Payment row is ever created for the booking. -/
theorem initiate_rejected_when_payment_exists (db : DB) (caller : Nat) (req : InitRequest)
    (gw : GatewayInitResult) (b : Booking) (q : Payment)
    (hb : db.bookings.find? (fun x => x.id == req.booking_id && x.userId == caller) = some b)
    (hq : db.payments.find? (fun p => p.bookingId == b.id) = some q) :
    (initiate_payment_endpoint db caller req gw).1.isError = true ∧
    (initiate_payment_endpoint db caller req gw).2 = db := by
  simp [initiate_payment_endpoint, initiation_is_valid, validate_booking_id, hb, hq,
    HttpResult.isError]

/-- Claim C2 (witness): concrete rejection for the fixture booking that
already has a payment. -/
theorem initiate_rejected_when_payment_exists_witness :
    (initiate_payment_endpoint dbEx 1 initReqEx gwInitFail).1.isError = true ∧
    (initiate_payment_endpoint dbEx 1 initReqEx gwInitFail).2 = dbEx :=
  initiate_rejected_when_payment_exists dbEx 1 initReqEx gwInitFail bookingEx paymentEx rfl rfl

/-- Claim C3: whenever the outbound gateway initiation call fails (non-200
gateway response or transport exception, modelled as a non-success gateway
result), the initiation endpoint answers with an error and the database is
unchanged — no Payment row is created on failure. -/
theorem initiate_gateway_failure_no_payment_row (db : DB) (caller : Nat) (req : InitRequest)
    (gw : GatewayInitResult) (hgw : gw.success = false) :
    (initiate_payment_endpoint db caller req gw).1.isError = true ∧
    (initiate_payment_endpoint db caller req gw).2 = db := by
  unfold initiate_payment_endpoint
  split
  · exact ⟨rfl, rfl⟩
  · exact ⟨rfl, rfl⟩
  · unfold initiate_payment_view
    split
    · exact ⟨rfl, rfl⟩
    · split
      · exact ⟨rfl, rfl⟩
      · simp [hgw, HttpResult.isError]

/-- Claim C3 (witness): concrete gateway failure leaves the empty database
unchanged and yields an error. -/
theorem initiate_gateway_failure_no_payment_row_witness :
    (initiate_payment_endpoint dbEmpty 1 initReqEx gwInitFail).1.isError = true ∧
    (initiate_payment_endpoint dbEmpty 1 initReqEx gwInitFail).2 = dbEmpty :=
  initiate_gateway_failure_no_payment_row dbEmpty 1 initReqEx gwInitFail rfl

/-- Claim C9: a review-creation request for a (user, destination) pair that
already has a review is answered with an error (the database unique
constraint raises an IntegrityError that escapes as a framework 500, since
the serializer attaches no unique-together validator) and the database is
unchanged — no second Review row for the pair is ever persisted. -/
theorem duplicate_review_rejected (db : DB) (caller dest rating : Nat) (comment : String)
    (r : Review)
    (hr : db.reviews.find? (fun q => q.userId == caller && q.destinationId == dest) = some r) :
    (create_review db caller dest rating comment).1.isError = true ∧
    (create_review db caller dest rating comment).2 = db := by
  have hdup : db.reviews.any
      (fun q => q.userId == caller && q.destinationId == dest) = true := by
    rw [List.any_eq_true]
    exact ⟨r, List.mem_of_find?_eq_some hr, (List.find?_eq_some.mp hr).1⟩
  unfold create_review
  by_cases hrt : rating ∈ RATING_CHOICES
  · rw [if_pos hrt]
    have hins : db.insertReview
        { userId := caller, destinationId := dest, rating := rating, comment := comment }
        = Except.error
            "UNIQUE constraint failed: listings_review.user_id, listings_review.destination_id" := by
      unfold DB.insertReview
      simp [hdup]
    rw [hins]
    exact ⟨rfl, rfl⟩
  · rw [if_neg hrt]
    exact ⟨rfl, rfl⟩

/-- Claim C9 (witness): concrete duplicate review for the fixture pair. -/
theorem duplicate_review_rejected_witness :
    (create_review dbRev 1 1 5 "again").1.isError = true ∧
    (create_review dbRev 1 1 5 "again").2 = dbRev :=
  duplicate_review_rejected dbRev 1 1 5 "again" reviewEx rfl

/-- Claim C5 (code evaluation at the failing input): the webhook view is
decorated with the IsAuthenticated permission, so an unauthenticated
gateway push carrying a valid transaction id and status is rejected with a
401 before the handler body runs, and the payment stays pending — contrary
to the claim that the webhook processes the notification without requiring
an authenticated caller. -/
theorem webhook_unauthenticated_rejected :
    chapa_webhook_endpoint dbEx none (mkWebhookData "TXN123" "success") 7
      = (HttpResult.ok 401 [("detail", "Authentication credentials were not provided.")], dbEx)
    ∧ dbEx.paymentStatusById 1 = some "pending" := ⟨rfl, rfl⟩

/-- Claim C7 (code evaluation at the failing inputs): because the handler's
local variable `status` shadows the imported status module, every webhook
request ends in an escaped AttributeError (framework 500): with a matching
payment the response is not the claimed 200 success body, with no matching
payment not the claimed 404 body, and with a payload lacking the fields
not the claimed 400 body. -/
theorem webhook_response_always_server_error :
    (chapa_webhook_endpoint dbEx (some 1) (mkWebhookData "TXN123" "success") 7).1
        = HttpResult.serverError ∧
    (chapa_webhook_endpoint dbEmpty (some 1) (mkWebhookData "TXN999" "success") 7).1
        = HttpResult.serverError ∧
    (chapa_webhook_endpoint dbEx (some 1) ([] : JsonObj) 7).1 = HttpResult.serverError :=
  ⟨rfl, rfl, rfl⟩

/-- Claim C6 (counterexample): a payment-status request whose payment id
resolves to no row is answered with a handled 500 response — not the
claimed 404 — because the view's broad exception handler swallows the
Http404. -/
theorem payment_status_no_404_counterexample :
    payment_status_endpoint dbEmpty 1 1
      = HttpResult.ok 500 [("error", "Internal server error")] ∧
    (payment_status_endpoint dbEmpty 1 1).statusCode ≠ 404 := ⟨rfl, by decide⟩

/-- Claim C6 (amended): a request referencing a booking, payment or
transaction id that does not resolve (or does not belong to the caller,
for the caller-scoped lookups) is always answered with an error, but never
with a 404: initiation and verification reject it with serializer-level
400 responses, while the payment-status endpoint answers 500 because its
Http404 is caught by the catch-all handler. -/
theorem unresolved_reference_error_codes (db : DB) (caller : Nat) (req : InitRequest)
    (tx : String) (pid : Nat) (gwI : GatewayInitResult) (gwV : GatewayVerifyResult) (t : Nat)
    (hbk : db.bookings.find? (fun b => b.id == req.booking_id && b.userId == caller) = none)
    (htx : db.findPaymentByTx tx = none)
    (hpm : db.payments.find? (fun p => p.id == pid && (db.bookingUserOf p == some caller))
      = none) :
    (initiate_payment_endpoint db caller req gwI).1.statusCode = 400 ∧
    (verify_payment_endpoint db caller tx gwV t).1.statusCode = 400 ∧
    (payment_status_endpoint db caller pid).statusCode = 500 := by
  refine ⟨?_, ?_, ?_⟩
  · unfold initiate_payment_endpoint initiation_is_valid validate_booking_id
    rw [hbk]
    rfl
  · unfold verify_payment_endpoint
    by_cases hlen : tx.length > 100
    · rw [if_pos hlen]
      rfl
    · rw [if_neg hlen, htx]
      rfl
  · unfold payment_status_endpoint
    rw [hpm]
    rfl

/-- Claim C6 (witness): concrete unresolvable references on the empty
database. -/
theorem unresolved_reference_error_codes_witness :
    (initiate_payment_endpoint dbEmpty 1 initReqEx gwInitFail).1.statusCode = 400 ∧
    (verify_payment_endpoint dbEmpty 1 "TXN123" gwVerifySuccess 3).1.statusCode = 400 ∧
    (payment_status_endpoint dbEmpty 1 1).statusCode = 500 :=
  unresolved_reference_error_codes dbEmpty 1 initReqEx "TXN123" 1 gwInitFail gwVerifySuccess 3
    rfl rfl rfl

/-- Claim C1: for a payment found by the gateway transaction id whose
gateway lookup succeeds, the gateway-reported status is mapped onto the
local rows: "success" completes the payment and confirms its parent
booking (via the verify endpoint, and likewise via the webhook handler),
"failed" marks the payment failed (via both), and any other reported
status via the verify endpoint marks the payment processing. -/
theorem verify_webhook_status_mapping (db : DB) (caller : Nat) (tx : String)
    (gw : GatewayVerifyResult) (t : Nat) (p : Payment) (b : Booking)
    (hp : db.findPaymentByTx tx = some p)
    (hb : db.findBookingById p.bookingId = some b)
    (hlen : tx.length ≤ 100)
    (hgw : gw.success = true)
    (htx : tx ≠ "") :
    (gw.status = some "success" →
      (verify_payment_endpoint db caller tx gw t).2.paymentStatusById p.id = some "completed" ∧
      (verify_payment_endpoint db caller tx gw t).2.bookingStatusById p.bookingId
        = some "confirmed") ∧
    (gw.status = some "failed" →
      (verify_payment_endpoint db caller tx gw t).2.paymentStatusById p.id = some "failed") ∧
    (gw.status ≠ some "success" → gw.status ≠ some "failed" →
      (verify_payment_endpoint db caller tx gw t).2.paymentStatusById p.id
        = some "processing") ∧
    ((chapa_webhook db (mkWebhookData tx "success") t).2.paymentStatusById p.id
        = some "completed" ∧
     (chapa_webhook db (mkWebhookData tx "success") t).2.bookingStatusById p.bookingId
        = some "confirmed") ∧
    ((chapa_webhook db (mkWebhookData tx "failed") t).2.paymentStatusById p.id
        = some "failed") := by
  have hmem : p ∈ db.payments := mem_of_findPaymentByTx db tx p hp
  have hpsome : (db.findPaymentById p.id).isSome = true :=
    findPaymentById_isSome_of_mem db p hmem
  have hbsome : (db.findBookingById p.bookingId).isSome = true := by rw [hb]; rfl
  have hnel : ¬ tx.length > 100 := by omega
  refine ⟨?_, ?_, ?_, ?_, ?_⟩
  · intro hs
    have h2 : (verify_payment_endpoint db caller tx gw t).2
        = (db.savePayment (p.update_status "completed" (some gw.data) t)).saveBookingStatus
            p.bookingId "confirmed" := by
      unfold verify_payment_endpoint verify_payment_view
      rw [if_neg hnel, hp]
      simp [hgw, hs]
    rw [h2]
    constructor
    · rw [paymentStatusById_saveBookingStatus]
      exact paymentStatusById_save_generic db
        (p.update_status "completed" (some gw.data) t) p.id rfl hpsome
    · exact bookingStatusById_saveBookingStatus
        (db.savePayment (p.update_status "completed" (some gw.data) t))
        p.bookingId "confirmed"
        (by rw [findBookingById_savePayment]; exact hbsome)
  · intro hs
    have h2 : (verify_payment_endpoint db caller tx gw t).2
        = db.savePayment (p.update_status "failed" (some gw.data) t) := by
      unfold verify_payment_endpoint verify_payment_view
      rw [if_neg hnel, hp]
      simp [hgw, hs]
    rw [h2]
    exact paymentStatusById_save_generic db
      (p.update_status "failed" (some gw.data) t) p.id rfl hpsome
  · intro hns hnf
    have h2 : (verify_payment_endpoint db caller tx gw t).2
        = db.savePayment (p.update_status "processing" (some gw.data) t) := by
      unfold verify_payment_endpoint verify_payment_view
      rw [if_neg hnel, hp]
      simp [hgw, hns, hnf]
    rw [h2]
    exact paymentStatusById_save_generic db
      (p.update_status "processing" (some gw.data) t) p.id rfl hpsome
  · have h2 : (chapa_webhook db (mkWebhookData tx "success") t).2
        = (db.savePayment
            (p.update_status "completed" (some (mkWebhookData tx "success")) t)).saveBookingStatus
            p.bookingId "confirmed" := by
      rw [chapa_webhook_success_eq db tx p t htx hp]
    rw [h2]
    constructor
    · rw [paymentStatusById_saveBookingStatus]
      exact paymentStatusById_save_generic db
        (p.update_status "completed" (some (mkWebhookData tx "success")) t) p.id rfl hpsome
    · exact bookingStatusById_saveBookingStatus
        (db.savePayment
          (p.update_status "completed" (some (mkWebhookData tx "success")) t))
        p.bookingId "confirmed"
        (by rw [findBookingById_savePayment]; exact hbsome)
  · have hfs : (chapa_webhook db (mkWebhookData tx "failed") t).2
        = db.savePayment (p.update_status "failed" (some (mkWebhookData tx "failed")) t) := by
      rw [chapa_webhook_failed_eq db tx p t htx hp]
    rw [hfs]
    exact paymentStatusById_save_generic db
      (p.update_status "failed" (some (mkWebhookData tx "failed")) t) p.id rfl hpsome

/-- Claim C1 (witness): concrete evaluation of the success mapping through
the verify endpoint on the fixture database. -/
theorem verify_webhook_status_mapping_witness :
    (verify_payment_endpoint dbEx 1 "TXN123" gwVerifySuccess 9).2.paymentStatusById 1
        = some "completed" ∧
    (verify_payment_endpoint dbEx 1 "TXN123" gwVerifySuccess 9).2.bookingStatusById 1
        = some "confirmed" :=
  (verify_webhook_status_mapping dbEx 1 "TXN123" gwVerifySuccess 9 paymentEx bookingEx
    rfl rfl (by decide) rfl (by decide)).1 rfl

/-- Claim C8: replaying the same success webhook for a payment that the
first delivery already completed leaves the payment and its booking in the
same state as after the first delivery with respect to the statuses the
claim names — the payment stays completed and the booking stays
confirmed. -/
theorem webhook_replay_idempotent_statuses (db : DB) (tx : String) (p : Payment) (b : Booking)
    (t1 t2 : Nat)
    (htx : tx ≠ "")
    (hp : db.findPaymentByTx tx = some p)
    (hb : db.findBookingById p.bookingId = some b)
    (hpw : db.payments.Pairwise (fun a c => a.id ≠ c.id)) :
    (chapa_webhook (chapa_webhook db (mkWebhookData tx "success") t1).2
        (mkWebhookData tx "success") t2).2.paymentStatusById p.id = some "completed" ∧
    (chapa_webhook (chapa_webhook db (mkWebhookData tx "success") t1).2
        (mkWebhookData tx "success") t2).2.bookingStatusById p.bookingId = some "confirmed" ∧
    (chapa_webhook db (mkWebhookData tx "success") t1).2.paymentStatusById p.id
      = (chapa_webhook (chapa_webhook db (mkWebhookData tx "success") t1).2
          (mkWebhookData tx "success") t2).2.paymentStatusById p.id ∧
    (chapa_webhook db (mkWebhookData tx "success") t1).2.bookingStatusById p.bookingId
      = (chapa_webhook (chapa_webhook db (mkWebhookData tx "success") t1).2
          (mkWebhookData tx "success") t2).2.bookingStatusById p.bookingId := by
  have hbsome : (db.findBookingById p.bookingId).isSome = true := by rw [hb]; rfl
  have hpsome : (db.findPaymentById p.id).isSome = true :=
    findPaymentById_isSome_of_mem db p (mem_of_findPaymentByTx db tx p hp)
  obtain ⟨w1p, w1b, w1tx, w1pw, w1bs, w1ps⟩ :=
    webhook_success_db_facts db tx p t1 htx hp hbsome hpsome hpw
  obtain ⟨w2p, w2b, _, _, _, _⟩ :=
    webhook_success_db_facts (chapa_webhook db (mkWebhookData tx "success") t1).2 tx
      (p.update_status "completed" (some (mkWebhookData tx "success")) t1) t2 htx
      w1tx w1bs w1ps w1pw
  exact ⟨w2p, w2b, by rw [w1p]; exact w2p.symm, by rw [w1b]; exact w2b.symm⟩

/-- Claim C8 (witness): concrete double delivery on the fixture database. -/
theorem webhook_replay_idempotent_statuses_witness :
    (chapa_webhook (chapa_webhook dbEx (mkWebhookData "TXN123" "success") 5).2
        (mkWebhookData "TXN123" "success") 9).2.paymentStatusById 1 = some "completed" ∧
    (chapa_webhook (chapa_webhook dbEx (mkWebhookData "TXN123" "success") 5).2
        (mkWebhookData "TXN123" "success") 9).2.bookingStatusById 1 = some "confirmed" ∧
    (chapa_webhook dbEx (mkWebhookData "TXN123" "success") 5).2.paymentStatusById 1
      = (chapa_webhook (chapa_webhook dbEx (mkWebhookData "TXN123" "success") 5).2
          (mkWebhookData "TXN123" "success") 9).2.paymentStatusById 1 ∧
    (chapa_webhook dbEx (mkWebhookData "TXN123" "success") 5).2.bookingStatusById 1
      = (chapa_webhook (chapa_webhook dbEx (mkWebhookData "TXN123" "success") 5).2
          (mkWebhookData "TXN123" "success") 9).2.bookingStatusById 1 :=
  webhook_replay_idempotent_statuses dbEx "TXN123" paymentEx bookingEx 5 9 (by decide)
    rfl rfl (by simp [dbEx])

end AlxTravel
